import Mathlib

/-!
Verification development for the OpenClaw Mission Control client/gateway
synchronization layer.

The definitions below are a shallow embedding of the two source files that
implement the core:
  - src/lib/gateway.ts        (GatewayConnection: connection state machine,
                               reconnect backoff, heartbeat, event registry)
  - src/components/layout/sidebar.tsx and the Zustand store
                              (Store Bridge: event handlers mutating the
                               application state)

Modelling conventions:
  - The single-threaded event loop is modelled as a labelled transition
    system: user calls (connect, disconnect) and environment callbacks
    (socket open / error / close, timer firings, incoming frames) are the
    actions, and `step` is the transition function.  Timers are modelled by
    a pending flag plus an explicit firing action.
  - JavaScript numbers used for delays are modelled as rationals; the value
    of Math.random() * 500 is passed in as an action parameter `jitter`.
  - Payloads typed `unknown` in the source are modelled as opaque strings.
  - JSON.parse is environment library code: an incoming frame arrives
    already classified as unparseable raw data or as a parsed envelope.
-/

-- ---------------------------------------------------------------------------
-- Connection states and timing constants (gateway.ts lines 117, 130-135)
-- ---------------------------------------------------------------------------

inductive ConnectionState
  | disconnected
  | connecting
  | connected
  | error
deriving DecidableEq, Repr

def GATEWAY_URL : String := "ws://127.0.0.1:18789"

def HEARTBEAT_INTERVAL_MS : ℚ := 15000

def HEARTBEAT_TIMEOUT_MS : ℚ := 5000

def BASE_RECONNECT_DELAY_MS : ℚ := 1000

def MAX_RECONNECT_DELAY_MS : ℚ := 30000

def MAX_RECONNECT_ATTEMPTS : Nat := 10

-- ---------------------------------------------------------------------------
-- Wire format (gateway.ts lines 107-111)
-- ---------------------------------------------------------------------------

/-- Wire envelope.  The source declares payload as optional `unknown`;
it is modelled here as an opaque string. -/
structure GatewayMessage where
  type : String
  payload : Option String
  timestamp : Option String
deriving DecidableEq, Repr

/-- An incoming frame, already classified by the environment JSON parser:
either raw data that failed to parse, or a parsed envelope. -/
inductive Frame
  | unparseable (data : String)
  | parsed (m : GatewayMessage)
deriving DecidableEq, Repr

-- ---------------------------------------------------------------------------
-- Emitted events (the arguments of the _emit calls in gateway.ts)
-- ---------------------------------------------------------------------------

/-- Events emitted through the listener registry.  The `disconnect` event of
the source carries intentional, optional code, reason and wasConnected; the
environment-supplied code and reason strings are not modelled, so the
constructor keeps intentional and the optional wasConnected flag. -/
inductive Ev
  | state_change (s : ConnectionState)
  | connect (url : String)
  | disconnect (intentional : Bool) (wasConnected : Option Bool)
  | reconnecting (attempt : Nat) (delay : ℚ)
  | reconnect_failed (attempts : Nat)
  | heartbeat_timeout
  | error
  | typed (ty : String) (payload : Option String)
  | message (m : GatewayMessage)
  | raw_message (data : String)
deriving DecidableEq, Repr

-- ---------------------------------------------------------------------------
-- Connection state (the mutable fields of class GatewayConnection)
-- ---------------------------------------------------------------------------

/-- Phase of the underlying browser socket.  `closing` means close() has been
called (or an error made the socket die) but the close callback has not yet
been delivered; the handlers attached in _openSocket still fire. -/
inductive SockPhase
  | noSock
  | connecting
  | opened
  | closing
deriving DecidableEq, Repr

/-- The mutable fields of GatewayConnection (gateway.ts lines 141-158) plus
the phase of the real underlying socket.  wsField models whether the
private `ws` field is non-null; heartbeatOn and hbTimeoutPending model
whether the corresponding timers are pending. -/
structure GW where
  url : String
  maxReconnectAttempts : Nat
  connState : ConnectionState
  reconnectAttempts : Nat
  reconnectTimer : Bool
  intentionalDisconnect : Bool
  heartbeatOn : Bool
  hbTimeoutPending : Bool
  wsField : Bool
  sock : SockPhase
deriving DecidableEq, Repr

/-- A freshly constructed GatewayConnection with the default url and
maximum attempt count (the module-level singleton). -/
def initGW : GW :=
  { url := GATEWAY_URL
    maxReconnectAttempts := MAX_RECONNECT_ATTEMPTS
    connState := ConnectionState.disconnected
    reconnectAttempts := 0
    reconnectTimer := false
    intentionalDisconnect := false
    heartbeatOn := false
    hbTimeoutPending := false
    wsField := false
    sock := SockPhase.noSock }

-- ---------------------------------------------------------------------------
-- Private helpers (gateway.ts lines 351-392)
-- ---------------------------------------------------------------------------

/-- _setState: assign the state field and emit a state_change event. -/
def setState (s : GW) (st : ConnectionState) : GW × List Ev :=
  ({ s with connState := st }, [Ev.state_change st])

/-- _clearReconnectTimer: cancel any pending reconnect timer. -/
def clearReconnectTimer (s : GW) : GW :=
  { s with reconnectTimer := false }

/-- _clearHeartbeatTimeout: cancel the pending heartbeat timeout timer. -/
def clearHeartbeatTimeout (s : GW) : GW :=
  { s with hbTimeoutPending := false }

/-- _clearHeartbeat: cancel the heartbeat interval and the pending timeout. -/
def clearHeartbeat (s : GW) : GW :=
  { s with heartbeatOn := false, hbTimeoutPending := false }

/-- _startHeartbeat: clear any previous heartbeat, then start the interval. -/
def startHeartbeat (s : GW) : GW :=
  { (clearHeartbeat s) with heartbeatOn := true }

/-- _scheduleReconnect (gateway.ts lines 333-349).  When the attempt counter
has reached the ceiling, emit reconnect_failed and schedule nothing.
Otherwise increment the counter first, compute the delay from the
incremented counter, emit reconnecting and set the timer.  The jitter
argument stands for the value of Math.random() * 500. -/
def scheduleReconnect (s : GW) (jitter : ℚ) : GW × List Ev :=
  if s.reconnectAttempts ≥ s.maxReconnectAttempts then
    (s, [Ev.reconnect_failed s.reconnectAttempts])
  else
    let n := s.reconnectAttempts + 1
    let base : ℚ := min (BASE_RECONNECT_DELAY_MS * 2 ^ (n - 1)) MAX_RECONNECT_DELAY_MS
    let delay := base + jitter
    ({ s with reconnectAttempts := n, reconnectTimer := true },
     [Ev.reconnecting n delay])

/-- _openSocket (gateway.ts lines 266-310).  Transition to connecting, then
construct the socket.  ctorFail models the constructor throwing: the catch
branch sets the error state, emits an error event and, unless the disconnect
was intentional, schedules a reconnect. -/
def openSocket (s : GW) (ctorFail : Bool) (jitter : ℚ) : GW × List Ev :=
  let r1 := setState s ConnectionState.connecting
  if ctorFail then
    let r2 := setState r1.1 ConnectionState.error
    if ¬ r2.1.intentionalDisconnect then
      let r3 := scheduleReconnect r2.1 jitter
      (r3.1, r1.2 ++ r2.2 ++ [Ev.error] ++ r3.2)
    else
      (r2.1, r1.2 ++ r2.2 ++ [Ev.error])
  else
    ({ r1.1 with wsField := true, sock := SockPhase.connecting }, r1.2)

-- ---------------------------------------------------------------------------
-- Public API (gateway.ts lines 166-185)
-- ---------------------------------------------------------------------------

/-- connect(): no-op when already connected or connecting; otherwise clear
the intentional-disconnect flag and open the socket. -/
def connect (s : GW) (ctorFail : Bool) (jitter : ℚ) : GW × List Ev :=
  if s.connState = ConnectionState.connected ∨ s.connState = ConnectionState.connecting then
    (s, [])
  else
    openSocket { s with intentionalDisconnect := false } ctorFail jitter

/-- disconnect(): set the intentional flag, cancel reconnect timer and
heartbeat, transition to disconnected, close the socket when the ws field
is set, and emit a single disconnect event with intentional true. -/
def disconnect (s : GW) : GW × List Ev :=
  let s1 := { s with intentionalDisconnect := true }
  let s2 := clearReconnectTimer s1
  let s3 := clearHeartbeat s2
  let r4 := setState s3 ConnectionState.disconnected
  let s5 :=
    if r4.1.wsField then
      { r4.1 with wsField := false, sock := SockPhase.closing }
    else r4.1
  (s5, r4.2 ++ [Ev.disconnect true none])

-- ---------------------------------------------------------------------------
-- Socket callbacks (the handlers attached in _openSocket)
-- ---------------------------------------------------------------------------

/-- ws.onopen (gateway.ts lines 272-277): reset the attempt counter, move to
connected, start the heartbeat, emit connect.  Only deliverable while the
socket is in the connecting phase. -/
def onOpen (s : GW) : GW × List Ev :=
  if s.sock = SockPhase.connecting then
    let s1 := { s with reconnectAttempts := 0, sock := SockPhase.opened }
    let r2 := setState s1 ConnectionState.connected
    (startHeartbeat r2.1, r2.2 ++ [Ev.connect s.url])
  else (s, [])

/-- ws.onerror (gateway.ts lines 283-286): set the error state and emit an
error event.  The browser always follows an error with a close event, so
the socket phase moves to closing. -/
def onError (s : GW) : GW × List Ev :=
  if s.sock = SockPhase.connecting ∨ s.sock = SockPhase.opened then
    let r1 := setState { s with sock := SockPhase.closing } ConnectionState.error
    (r1.1, r1.2 ++ [Ev.error])
  else (s, [])

/-- ws.onclose (gateway.ts lines 288-302): clear the heartbeat, null out the
ws field, record whether the state was connected, transition to
disconnected, emit a disconnect event with the current intentional flag,
and schedule a reconnect when the disconnect was not intentional. -/
def onClose (s : GW) (jitter : ℚ) : GW × List Ev :=
  if s.sock = SockPhase.noSock then (s, [])
  else
    let s1 := clearHeartbeat { s with sock := SockPhase.noSock, wsField := false }
    let wasConnected := s.connState = ConnectionState.connected
    let r2 := setState s1 ConnectionState.disconnected
    let ev := Ev.disconnect r2.1.intentionalDisconnect (some wasConnected)
    if ¬ r2.1.intentionalDisconnect then
      let r3 := scheduleReconnect r2.1 jitter
      (r3.1, r2.2 ++ [ev] ++ r3.2)
    else
      (r2.1, r2.2 ++ [ev])

/-- _handleMessage (gateway.ts lines 312-331): a frame that failed JSON
parsing is emitted on the raw_message channel only; a parsed pong clears the
pending heartbeat timeout and is not forwarded; every other parsed envelope
is emitted once on the channel named by its type (payload only) and once on
the generic message channel (full envelope).  The function is total: no code
path throws. -/
def handleMessage (s : GW) (f : Frame) : GW × List Ev :=
  match f with
  | Frame.unparseable d => (s, [Ev.raw_message d])
  | Frame.parsed m =>
      if m.type = "pong" then (clearHeartbeatTimeout s, [])
      else (s, [Ev.typed m.type m.payload, Ev.message m])

-- ---------------------------------------------------------------------------
-- Timer firings
-- ---------------------------------------------------------------------------

/-- The reconnect timer fires (the setTimeout callback in _scheduleReconnect):
consume the timer and, unless the disconnect became intentional meanwhile,
open a new socket. -/
def reconnectTimerFires (s : GW) (ctorFail : Bool) (jitter : ℚ) : GW × List Ev :=
  if s.reconnectTimer then
    let s1 := { s with reconnectTimer := false }
    if ¬ s1.intentionalDisconnect then openSocket s1 ctorFail jitter
    else (s1, [])
  else (s, [])

/-- The heartbeat interval fires (_startHeartbeat callback): when the ws
field holds an open socket, send a ping and arm the heartbeat timeout. -/
def heartbeatTickFires (s : GW) : GW × List Ev :=
  if s.heartbeatOn then
    if s.wsField ∧ s.sock = SockPhase.opened then
      ({ s with hbTimeoutPending := true }, [])
    else (s, [])
  else (s, [])

/-- The heartbeat timeout fires: emit heartbeat_timeout and close the socket
when the ws field is set. -/
def heartbeatTimeoutFires (s : GW) : GW × List Ev :=
  if s.hbTimeoutPending then
    let s1 := { s with hbTimeoutPending := false }
    let s2 := if s1.wsField then { s1 with sock := SockPhase.closing } else s1
    (s2, [Ev.heartbeat_timeout])
  else (s, [])

-- ---------------------------------------------------------------------------
-- Labelled transition system over the event loop
-- ---------------------------------------------------------------------------

/-- Actions of the event loop: the two public calls and the environment
callbacks.  ctorFail and jitter parametrise the environment choices made
inside the corresponding handler. -/
inductive Act
  | callConnect (ctorFail : Bool) (jitter : ℚ)
  | callDisconnect
  | sockOpen
  | sockError
  | sockClose (jitter : ℚ)
  | timerReconnect (ctorFail : Bool) (jitter : ℚ)
  | timerHeartbeat
  | timerHbTimeout
  | sockFrame (f : Frame)
deriving DecidableEq, Repr

/-- One step of the event loop.  Messages are only deliverable while the
socket is open. -/
def step (s : GW) (a : Act) : GW × List Ev :=
  match a with
  | Act.callConnect cf j => connect s cf j
  | Act.callDisconnect => disconnect s
  | Act.sockOpen => onOpen s
  | Act.sockError => onError s
  | Act.sockClose j => onClose s j
  | Act.timerReconnect cf j => reconnectTimerFires s cf j
  | Act.timerHeartbeat => heartbeatTickFires s
  | Act.timerHbTimeout => heartbeatTimeoutFires s
  | Act.sockFrame f => if s.sock = SockPhase.opened then handleMessage s f else (s, [])

/-- Run a sequence of actions, accumulating all emitted events in order. -/
def runActs (s : GW) : List Act → GW × List Ev
  | [] => (s, [])
  | a :: tr =>
      let r := step s a
      let r2 := runActs r.1 tr
      (r2.1, r.2 ++ r2.2)

-- ---------------------------------------------------------------------------
-- Status snapshot (gateway.ts lines 232-250)
-- ---------------------------------------------------------------------------

structure GatewayConnectionStatus where
  state : ConnectionState
  connected : Bool
  reconnectAttempts : Nat
  url : String
deriving DecidableEq, Repr

/-- getStatus(): snapshot of the connection. -/
def getStatus (s : GW) : GatewayConnectionStatus :=
  { state := s.connState
    connected := s.connState == ConnectionState.connected
    reconnectAttempts := s.reconnectAttempts
    url := s.url }

/-- The isConnected getter. -/
def isConnected (s : GW) : Bool :=
  s.connState == ConnectionState.connected

-- ---------------------------------------------------------------------------
-- Listener registry (gateway.ts lines 150, 256-264, 394-404)
-- ---------------------------------------------------------------------------

/-- The listener registry is a Map from event-type string to a JavaScript
Set of callbacks.  Callback reference identity is modelled by a natural
number; a Set is modelled as a duplicate-free list in insertion order,
which is exactly the iteration order of a JavaScript Set. -/
def Listeners : Type := String → List Nat

def emptyListeners : Listeners := fun _ => []

/-- _on: get-or-create the Set for the event and add the callback.
Set.add is a no-op when the callback reference is already present. -/
def onReg (m : Listeners) (ev : String) (cb : Nat) : Listeners :=
  fun e =>
    if e = ev then (if cb ∈ m ev then m ev else m ev ++ [cb]) else m e

/-- The unsubscribe closure returned by _on: Set.delete of the callback
from the Set registered under the event. -/
def offReg (m : Listeners) (ev : String) (cb : Nat) : Listeners :=
  fun e => if e = ev then (m ev).erase cb else m e

/-- _emit iterates the Set registered for the event; each callback is
invoked inside try/catch: a throw is caught and logged and the loop
continues.  A callback is modelled by its identity together with an
environment predicate saying whether invoking it throws.  The result is the
list of invoked callback identities in iteration order, paired with the
list of identities whose error was caught and logged.  The function is
total: nothing propagates to the caller. -/
def emitLoop (cbs : List Nat) (throws : Nat → Bool) : List Nat × List Nat :=
  cbs.foldl
    (fun acc cb =>
      if throws cb then (acc.1 ++ [cb], acc.2 ++ [cb])
      else (acc.1 ++ [cb], acc.2))
    ([], [])

-- ---------------------------------------------------------------------------
-- Store Bridge: application state types (src/types/index.ts)
-- ---------------------------------------------------------------------------

inductive AgentStatus
  | online
  | offline
  | busy
  | error
deriving DecidableEq, Repr

/-- Agent record (types/index.ts).  JavaScript numbers are modelled as
rationals. -/
structure Agent where
  id : String
  name : String
  emoji : String
  status : AgentStatus
  currentTask : Option String
  uptime : ℚ
  sessionsToday : ℚ
  tokensUsed : ℚ
  costToday : ℚ
  lastActive : String
  capabilities : List String
  model : String
deriving DecidableEq, Repr

/-- Partial Agent: each field optionally present, as in the TypeScript
Partial type.  A field that is none is absent from the object. -/
structure PartialAgent where
  id : Option String
  name : Option String
  emoji : Option String
  status : Option AgentStatus
  currentTask : Option String
  uptime : Option ℚ
  sessionsToday : Option ℚ
  tokensUsed : Option ℚ
  costToday : Option ℚ
  lastActive : Option String
  capabilities : Option (List String)
  model : Option String
deriving DecidableEq, Repr

/-- Object spread on records: every key present in the partial object
overrides the base, every absent key keeps the base value. -/
def mergeAgent (a : Agent) (d : PartialAgent) : Agent :=
  { id := match d.id with | some v => v | none => a.id
    name := match d.name with | some v => v | none => a.name
    emoji := match d.emoji with | some v => v | none => a.emoji
    status := match d.status with | some v => v | none => a.status
    currentTask := match d.currentTask with | some v => some v | none => a.currentTask
    uptime := match d.uptime with | some v => v | none => a.uptime
    sessionsToday := match d.sessionsToday with | some v => v | none => a.sessionsToday
    tokensUsed := match d.tokensUsed with | some v => v | none => a.tokensUsed
    costToday := match d.costToday with | some v => v | none => a.costToday
    lastActive := match d.lastActive with | some v => v | none => a.lastActive
    capabilities := match d.capabilities with | some v => v | none => a.capabilities
    model := match d.model with | some v => v | none => a.model }

/-- updateAgent store action: map over the agent list, merging the partial
data into the agent whose id matches and leaving every other entry as is. -/
def updateAgent (id : String) (data : PartialAgent) (agents : List Agent) : List Agent :=
  agents.map (fun a => if a.id = id then mergeAgent a data else a)

/-- agent.status event payload (gateway.ts lines 27-34). -/
structure AgentStatusPayload where
  agentId : String
  status : AgentStatus
  currentTask : Option String
  tokensUsed : Option ℚ
  costToday : Option ℚ
  lastActive : Option String
deriving DecidableEq, Repr

/-- The rest-spread in the agent.status handler: the payload minus its
agentId key, viewed as a Partial Agent.  status is a required payload
field, so it is always present in the changes. -/
def payloadChanges (p : AgentStatusPayload) : PartialAgent :=
  { id := none
    name := none
    emoji := none
    status := some p.status
    currentTask := p.currentTask
    uptime := none
    sessionsToday := none
    tokensUsed := p.tokensUsed
    costToday := p.costToday
    lastActive := p.lastActive
    capabilities := none
    model := none }

/-- The agent.status handler of useAutoSync: destructure agentId from the
payload and call updateAgent with the remaining fields. -/
def applyAgentStatus (p : AgentStatusPayload) (agents : List Agent) : List Agent :=
  updateAgent p.agentId (payloadChanges p) agents

-- ---------------------------------------------------------------------------
-- Store Bridge: log entries (store addLog, sidebar log.entry handler)
-- ---------------------------------------------------------------------------

inductive LogLevel
  | info
  | warn
  | error
  | debug
deriving DecidableEq, Repr

/-- LogEntry record (types/index.ts).  The metadata record of unknowns is
modelled as an opaque optional string. -/
structure LogEntry where
  id : String
  timestamp : String
  level : LogLevel
  agentId : String
  message : String
  metadata : Option String
deriving DecidableEq, Repr

/-- addLog store action: prepend the entry and truncate to the first 500
elements (Array.prototype.slice with bounds 0 and 500). -/
def addLog (log : LogEntry) (logs : List LogEntry) : List LogEntry :=
  (log :: logs).take 500

/-- Applying a sequence of log.entry events in arrival order: each event
calls addLog on the current list. -/
def applyLogEntries (init : List LogEntry) (es : List LogEntry) : List LogEntry :=
  es.foldl (fun logs e => addLog e logs) init

-- ---------------------------------------------------------------------------
-- Store Bridge: active-session counter (sidebar.tsx session handlers)
-- ---------------------------------------------------------------------------

/-- session.start handler: increment the live counter reference. -/
def sessionStart (n : Int) : Int := n + 1

/-- session.end handler: decrement the live counter reference, floored at
zero with Math.max. -/
def sessionEnd (n : Int) : Int := max 0 (n - 1)

-- ---------------------------------------------------------------------------
-- Event and action predicates used in the claims
-- ---------------------------------------------------------------------------

def isCallConnect : Act → Bool
  | Act.callConnect _ _ => true
  | _ => false

def isDisconnectEv : Ev → Bool
  | Ev.disconnect _ _ => true
  | _ => false

def isReconnectingEv : Ev → Bool
  | Ev.reconnecting _ _ => true
  | _ => false

def isConnectingStateEv : Ev → Bool
  | Ev.state_change ConnectionState.connecting => true
  | _ => false

def isReconnectFailedEv : Ev → Bool
  | Ev.reconnect_failed _ => true
  | _ => false

-- ---------------------------------------------------------------------------
-- Shared helper lemmas
-- ---------------------------------------------------------------------------

theorem emitLoop_foldl (throws : Nat → Bool) (cbs : List Nat) (acc : List Nat × List Nat) :
    cbs.foldl
      (fun acc cb =>
        if throws cb then (acc.1 ++ [cb], acc.2 ++ [cb])
        else (acc.1 ++ [cb], acc.2)) acc
      = (acc.1 ++ cbs, acc.2 ++ cbs.filter throws) := by
  induction cbs generalizing acc with
  | nil => simp
  | cons c cs ih =>
      by_cases h : throws c
      · simp [List.foldl_cons, h, ih, List.filter_cons]
      · simp [List.foldl_cons, h, ih, List.filter_cons]

/-- The emit loop invokes every registered callback, in registration order,
and logs exactly the callbacks that throw. -/
theorem emitLoop_spec (cbs : List Nat) (throws : Nat → Bool) :
    emitLoop cbs throws = (cbs, cbs.filter throws) := by
  have h := emitLoop_foldl throws cbs ([], [])
  simpa [emitLoop] using h

-- ---------------------------------------------------------------------------
-- C10
-- ---------------------------------------------------------------------------

/-- C10: in every state of a GatewayConnection, the snapshot returned by
getStatus has its connected field true exactly when its state field is the
connected state, and the isConnected getter agrees with that derivation. -/
theorem getStatus_connected_agrees_C10 (s : GW) :
    (getStatus s).connected = ((getStatus s).state == ConnectionState.connected) ∧
    ((getStatus s).connected = true ↔ (getStatus s).state = ConnectionState.connected) ∧
    isConnected s = (getStatus s).connected := by
  refine ⟨rfl, ?_, rfl⟩
  simp [getStatus, beq_iff_eq]

-- ---------------------------------------------------------------------------
-- C5
-- ---------------------------------------------------------------------------

/-- C5: for every nonnegative value of the active-session counter, applying
session.start and then session.end returns the counter to its previous
value; and for every counter value, session.end never yields a negative
counter. -/
theorem sessionCounter_C5 (v w : Int) (hv : 0 ≤ v) :
    sessionEnd (sessionStart v) = v ∧ 0 ≤ sessionEnd w := by
  constructor
  · simp only [sessionStart, sessionEnd]
    omega
  · simp only [sessionEnd]
    omega

theorem sessionCounter_C5_witness :
    0 ≤ (3 : Int) ∧ (sessionEnd (sessionStart 3) = 3 ∧ 0 ≤ sessionEnd (-2)) :=
  ⟨by decide, sessionCounter_C5 3 (-2) (by decide)⟩

-- ---------------------------------------------------------------------------
-- C8
-- ---------------------------------------------------------------------------

/-- C8: for every emission, all callbacks registered for the event are
invoked in registration order; a throw by one callback is caught (and the
thrower logged) without preventing the invocation of the remaining
callbacks, and nothing propagates to the caller of the emit loop (the
result type of emitLoop carries no exception). -/
theorem emit_listener_isolation_C8 (cbs : List Nat) (throws : Nat → Bool) :
    (emitLoop cbs throws).1 = cbs ∧
    (emitLoop cbs throws).2 = cbs.filter throws := by
  rw [emitLoop_spec]
  exact ⟨rfl, rfl⟩

-- ---------------------------------------------------------------------------
-- C9
-- ---------------------------------------------------------------------------

/-- C9 counterexample: the registry is a JavaScript Set, so registering the
same callback reference twice for the same event type yields a single
registration and a single invocation per emission, not two. -/
theorem register_twice_dedups_counterexample_C9 :
    ((onReg (onReg emptyListeners "agent.status" 7) "agent.status" 7) "agent.status").length = 1 ∧
    (emitLoop ((onReg (onReg emptyListeners "agent.status" 7) "agent.status" 7) "agent.status")
        (fun _ => false)).1.count 7 = 1 ∧
    ¬ (emitLoop ((onReg (onReg emptyListeners "agent.status" 7) "agent.status" 7) "agent.status")
        (fun _ => false)).1.count 7 = 2 := by
  refine ⟨?_, ?_, ?_⟩ <;> simp [onReg, emptyListeners, emitLoop_spec]

/-- C9 amended: registering the same callback twice for the same event type
is deduplicated by the Set-backed registry, so a second identical
registration is a no-op and the callback is invoked once per matching
emission; invoking the unsubscribe handle removes that single
registration. -/
theorem register_dedup_C9 (m : Listeners) (ev : String) (cb : Nat) (throws : Nat → Bool)
    (h : cb ∉ m ev) :
    onReg (onReg m ev cb) ev cb = onReg m ev cb ∧
    ((onReg (onReg m ev cb) ev cb) ev).count cb = 1 ∧
    (emitLoop ((onReg (onReg m ev cb) ev cb) ev) throws).1.count cb = 1 ∧
    ((offReg (onReg (onReg m ev cb) ev cb) ev cb) ev).count cb = 0 := by
  have hmem : cb ∈ (onReg m ev cb) ev := by
    simp [onReg, h]
  have hreg : (onReg m ev cb) ev = m ev ++ [cb] := by
    simp [onReg, h]
  have hdedup : onReg (onReg m ev cb) ev cb = onReg m ev cb := by
    funext e
    by_cases he : e = ev
    · subst he
      simp [onReg, h]
    · simp [onReg, he]
  have hcount0 : (m ev).count cb = 0 := List.count_eq_zero.mpr h
  have hcount : ((onReg (onReg m ev cb) ev cb) ev).count cb = 1 := by
    rw [hdedup, hreg]
    simp [List.count_append, hcount0]
  refine ⟨hdedup, hcount, ?_, ?_⟩
  · rw [emitLoop_spec]
    exact hcount
  · rw [hdedup]
    have h2 : (offReg (onReg m ev cb) ev cb) ev = ((onReg m ev cb) ev).erase cb := by
      simp [offReg]
    rw [h2, List.count_erase_self, hreg]
    simp [List.count_append, hcount0]

theorem register_dedup_C9_witness :
    (7 : Nat) ∉ emptyListeners "agent.status" ∧
    (((onReg (onReg emptyListeners "agent.status" 7) "agent.status" 7) "agent.status").count 7 = 1 ∧
     ((offReg (onReg (onReg emptyListeners "agent.status" 7) "agent.status" 7) "agent.status" 7)
        "agent.status").count 7 = 0) :=
  ⟨by simp [emptyListeners],
   ⟨(register_dedup_C9 emptyListeners "agent.status" 7 (fun _ => false)
       (by simp [emptyListeners])).2.1,
    (register_dedup_C9 emptyListeners "agent.status" 7 (fun _ => false)
       (by simp [emptyListeners])).2.2.2⟩⟩

-- ---------------------------------------------------------------------------
-- C4
-- ---------------------------------------------------------------------------

/-- C4: message dispatch never throws and behaves per frame as follows: an
unparseable frame produces exactly one raw_message event carrying the raw
data and no message event; a parsed pong clears the pending heartbeat
timeout and is not forwarded to any channel; any other parsed envelope is
emitted exactly once on the channel named by its type field, carrying only
the payload, and exactly once on the generic message channel, carrying the
full envelope. -/
theorem dispatch_C4 (s : GW) (d : String) (m mp : GatewayMessage)
    (hm : m.type ≠ "pong") (hmp : mp.type = "pong") :
    handleMessage s (Frame.unparseable d) = (s, [Ev.raw_message d]) ∧
    handleMessage s (Frame.parsed mp) = (clearHeartbeatTimeout s, []) ∧
    handleMessage s (Frame.parsed m) = (s, [Ev.typed m.type m.payload, Ev.message m]) := by
  refine ⟨rfl, ?_, ?_⟩
  · simp [handleMessage, hmp]
  · simp [handleMessage, hm]

theorem dispatch_C4_witness :
    (({ type := "agent.status", payload := some "p", timestamp := none } : GatewayMessage).type
        ≠ "pong") ∧
    (({ type := "pong", payload := none, timestamp := none } : GatewayMessage).type = "pong") ∧
    (handleMessage initGW (Frame.unparseable "not json") =
        (initGW, [Ev.raw_message "not json"]) ∧
     handleMessage initGW
        (Frame.parsed { type := "pong", payload := none, timestamp := none }) =
        (clearHeartbeatTimeout initGW, []) ∧
     handleMessage initGW
        (Frame.parsed { type := "agent.status", payload := some "p", timestamp := none }) =
        (initGW, [Ev.typed "agent.status" (some "p"),
          Ev.message { type := "agent.status", payload := some "p", timestamp := none }])) :=
  ⟨by decide, rfl,
   dispatch_C4 initGW "not json"
     { type := "agent.status", payload := some "p", timestamp := none }
     { type := "pong", payload := none, timestamp := none }
     (by decide) rfl⟩

-- ---------------------------------------------------------------------------
-- C6
-- ---------------------------------------------------------------------------

theorem take_append_take {α : Type} (xs l : List α) (n : Nat) :
    (xs ++ l.take n).take n = (xs ++ l).take n := by
  rw [List.take_append_eq_append_take, List.take_append_eq_append_take, List.take_take]
  have h : min (n - xs.length) n = n - xs.length := Nat.min_eq_left (Nat.sub_le n xs.length)
  rw [h]

theorem applyLogEntries_cons_eq (e : LogEntry) (es init : List LogEntry) :
    applyLogEntries init (e :: es) = ((e :: es).reverse ++ init).take 500 := by
  induction es generalizing e init with
  | nil => simp [applyLogEntries, addLog]
  | cons e2 es ih =>
      have h1 : applyLogEntries init (e :: e2 :: es) = applyLogEntries (addLog e init) (e2 :: es) := by
        simp [applyLogEntries]
      rw [h1, ih e2 (addLog e init)]
      have h2 : ((e2 :: es).reverse ++ (addLog e init)).take 500
          = ((e2 :: es).reverse ++ (e :: init)).take 500 := by
        simpa [addLog] using take_append_take (e2 :: es).reverse (e :: init) 500
      rw [h2]
      have h3 : (e2 :: es).reverse ++ (e :: init) = (e :: e2 :: es).reverse ++ init := by
        simp
      rw [h3]

/-- C6: for every starting log list and every sequence of more than 500
log.entry events applied through the Store Bridge, the retained log list
has length exactly 500 and consists of the 500 most recently received
entries in most-recent-first order: new entries are prepended and eviction
happens from the tail. -/
theorem logCap_C6 (init es : List LogEntry) (h : 500 < es.length) :
    (applyLogEntries init es).length = 500 ∧
    applyLogEntries init es = es.reverse.take 500 := by
  cases es with
  | nil => simp at h
  | cons e es' =>
      rw [applyLogEntries_cons_eq]
      have hlen : 500 ≤ (e :: es').reverse.length := by
        simp only [List.length_reverse]
        omega
      constructor
      · rw [List.length_take, List.length_append]
        omega
      · rw [List.take_append_eq_append_take]
        have hz : 500 - (e :: es').reverse.length = 0 := by omega
        rw [hz]
        simp

def sampleLog : LogEntry :=
  { id := "log-1", timestamp := "2025-01-01T00:00:00Z", level := LogLevel.info
    agentId := "agent-1", message := "hello", metadata := none }

theorem logCap_C6_witness :
    500 < (List.replicate 501 sampleLog).length ∧
    ((applyLogEntries [] (List.replicate 501 sampleLog)).length = 500 ∧
     applyLogEntries [] (List.replicate 501 sampleLog)
        = (List.replicate 501 sampleLog).reverse.take 500) :=
  ⟨by rw [List.length_replicate]; omega,
   logCap_C6 [] (List.replicate 501 sampleLog) (by rw [List.length_replicate]; omega)⟩

-- ---------------------------------------------------------------------------
-- C7
-- ---------------------------------------------------------------------------

/-- C7: applying an agent.status event changes only the entry whose id
matches the agentId of the event, overrides exactly the fields present in
the event payload on that entry, preserves every field absent from the
payload, preserves the id, leaves every other agent unchanged, and leaves
the collection entirely unchanged (no entry created) when no entry matches
the agentId. -/
theorem agentStatus_C7 (agents : List Agent) (p : AgentStatusPayload) (i : Nat) (a : Agent)
    (ha : agents[i]? = some a) :
    ((∀ b ∈ agents, b.id ≠ p.agentId) → applyAgentStatus p agents = agents) ∧
    (applyAgentStatus p agents).length = agents.length ∧
    (a.id ≠ p.agentId → (applyAgentStatus p agents)[i]? = some a) ∧
    (a.id = p.agentId →
      (applyAgentStatus p agents)[i]? = some (mergeAgent a (payloadChanges p))) ∧
    (mergeAgent a (payloadChanges p)).id = a.id ∧
    (mergeAgent a (payloadChanges p)).status = p.status ∧
    (mergeAgent a (payloadChanges p)).name = a.name ∧
    (mergeAgent a (payloadChanges p)).emoji = a.emoji ∧
    (mergeAgent a (payloadChanges p)).uptime = a.uptime ∧
    (mergeAgent a (payloadChanges p)).sessionsToday = a.sessionsToday ∧
    (mergeAgent a (payloadChanges p)).capabilities = a.capabilities ∧
    (mergeAgent a (payloadChanges p)).model = a.model ∧
    (mergeAgent a (payloadChanges p)).currentTask
      = (match p.currentTask with | some v => some v | none => a.currentTask) ∧
    (mergeAgent a (payloadChanges p)).tokensUsed = p.tokensUsed.getD a.tokensUsed ∧
    (mergeAgent a (payloadChanges p)).costToday = p.costToday.getD a.costToday ∧
    (mergeAgent a (payloadChanges p)).lastActive = p.lastActive.getD a.lastActive := by
  refine ⟨?_, ?_, ?_, ?_, ?_, ?_, ?_, ?_, ?_, ?_, ?_, ?_, ?_, ?_, ?_, ?_⟩
  · intro hall
    simp only [applyAgentStatus, updateAgent]
    have hmap : agents.map
          (fun a => if a.id = p.agentId then mergeAgent a (payloadChanges p) else a)
        = agents.map id :=
      List.map_congr_left (fun b hb => by simp [hall b hb])
    simpa using hmap
  · simp [applyAgentStatus, updateAgent]
  · intro hne
    simp [applyAgentStatus, updateAgent, List.getElem?_map, ha, hne]
  · intro heq
    simp [applyAgentStatus, updateAgent, List.getElem?_map, ha, heq]
  · cases p.currentTask <;> rfl
  · rfl
  · rfl
  · rfl
  · rfl
  · rfl
  · rfl
  · rfl
  · rfl
  · rcases hp : p.tokensUsed with _ | v <;> simp [mergeAgent, payloadChanges, hp]
  · rcases hp : p.costToday with _ | v <;> simp [mergeAgent, payloadChanges, hp]
  · rcases hp : p.lastActive with _ | v <;> simp [mergeAgent, payloadChanges, hp]

def froggyAgent : Agent :=
  { id := "a1froggy", name := "Froggy", emoji := "F", status := AgentStatus.online
    currentTask := none, uptime := 0, sessionsToday := 0, tokensUsed := 0
    costToday := 0, lastActive := "2025-01-01T00:00:00Z", capabilities := [], model := "m1" }

def busyPayload : AgentStatusPayload :=
  { agentId := "a1froggy", status := AgentStatus.busy, currentTask := none
    tokensUsed := none, costToday := none, lastActive := none }

def ghostPayload : AgentStatusPayload :=
  { agentId := "nobody", status := AgentStatus.busy, currentTask := none
    tokensUsed := none, costToday := none, lastActive := none }

theorem agentStatus_C7_witness :
    (applyAgentStatus busyPayload [froggyAgent])[0]?
      = some (mergeAgent froggyAgent (payloadChanges busyPayload)) ∧
    (mergeAgent froggyAgent (payloadChanges busyPayload)).status = AgentStatus.busy ∧
    (mergeAgent froggyAgent (payloadChanges busyPayload)).name = froggyAgent.name ∧
    applyAgentStatus ghostPayload [froggyAgent] = [froggyAgent] :=
  ⟨(agentStatus_C7 [froggyAgent] busyPayload 0 froggyAgent rfl).2.2.2.1 rfl,
   (agentStatus_C7 [froggyAgent] busyPayload 0 froggyAgent rfl).2.2.2.2.2.1,
   (agentStatus_C7 [froggyAgent] busyPayload 0 froggyAgent rfl).2.2.2.2.2.2.1,
   (agentStatus_C7 [froggyAgent] ghostPayload 0 froggyAgent rfl).1 (by decide)⟩

-- ---------------------------------------------------------------------------
-- C1
-- ---------------------------------------------------------------------------

theorem step_after_disconnect (s : GW) (a : Act)
    (hs : s.intentionalDisconnect = true) (ht : s.reconnectTimer = false)
    (ha : isCallConnect a = false) :
    (step s a).1.intentionalDisconnect = true ∧
    (step s a).1.reconnectTimer = false ∧
    (step s a).2.filter (fun e => isReconnectingEv e || isConnectingStateEv e) = [] := by
  cases a with
  | callConnect cf j => simp [isCallConnect] at ha
  | callDisconnect =>
      simp only [step, disconnect, setState, clearReconnectTimer, clearHeartbeat]
      refine ⟨?_, ?_, ?_⟩
      · split <;> rfl
      · split <;> rfl
      · simp [isReconnectingEv, isConnectingStateEv]
  | sockOpen =>
      simp only [step, onOpen]
      split
      · exact ⟨hs, ht, by simp [setState, startHeartbeat, clearHeartbeat,
          isReconnectingEv, isConnectingStateEv]⟩
      · exact ⟨hs, ht, rfl⟩
  | sockError =>
      simp only [step, onError]
      split
      · exact ⟨hs, ht, by simp [setState, isReconnectingEv, isConnectingStateEv]⟩
      · exact ⟨hs, ht, rfl⟩
  | sockClose j =>
      simp only [step, onClose]
      split
      · exact ⟨hs, ht, rfl⟩
      · simp only [setState, clearHeartbeat, hs]
        simp [isReconnectingEv, isConnectingStateEv, hs, ht]
  | timerReconnect cf j =>
      simp only [step, reconnectTimerFires, ht]
      exact ⟨hs, ht, rfl⟩
  | timerHeartbeat =>
      simp only [step, heartbeatTickFires]
      split
      · split
        · exact ⟨hs, ht, rfl⟩
        · exact ⟨hs, ht, rfl⟩
      · exact ⟨hs, ht, rfl⟩
  | timerHbTimeout =>
      simp only [step, heartbeatTimeoutFires]
      split
      · refine ⟨?_, ?_, rfl⟩
        · split <;> exact hs
        · split <;> exact ht
      · exact ⟨hs, ht, rfl⟩
  | sockFrame f =>
      simp only [step]
      split
      · cases f with
        | unparseable d =>
            exact ⟨hs, ht, by simp [handleMessage, isReconnectingEv, isConnectingStateEv]⟩
        | parsed m =>
            by_cases hm : m.type = "pong"
            · refine ⟨?_, ?_, ?_⟩ <;>
                simp [handleMessage, hm, clearHeartbeatTimeout, hs, ht]
            · refine ⟨?_, ?_, ?_⟩ <;>
                simp [handleMessage, hm, isReconnectingEv, isConnectingStateEv, hs, ht]
      · exact ⟨hs, ht, rfl⟩

theorem runActs_after_disconnect (s : GW) (tr : List Act)
    (hs : s.intentionalDisconnect = true) (ht : s.reconnectTimer = false)
    (hnc : ∀ a ∈ tr, isCallConnect a = false) :
    (runActs s tr).1.intentionalDisconnect = true ∧
    (runActs s tr).1.reconnectTimer = false ∧
    (runActs s tr).2.filter (fun e => isReconnectingEv e || isConnectingStateEv e) = [] := by
  induction tr generalizing s with
  | nil => exact ⟨hs, ht, rfl⟩
  | cons a tr ih =>
      have h1 := step_after_disconnect s a hs ht (hnc a (by simp))
      have h2 := ih (step s a).1 h1.1 h1.2.1 (fun b hb => hnc b (by simp [hb]))
      refine ⟨h2.1, h2.2.1, ?_⟩
      simp only [runActs, List.filter_append]
      rw [h1.2.2, h2.2.2]
      rfl

/-- C1: a call to disconnect emits exactly one disconnect event, and that
event carries intentional true; afterwards, for every sequence of user and
environment actions that does not contain a connect call, no automatic
reconnect attempt is scheduled (no reconnecting event, reconnect timer
stays unset) and none is executed (no transition into the connecting
state). -/
theorem disconnect_C1 (s : GW) (tr : List Act)
    (hnc : ∀ a ∈ tr, isCallConnect a = false) :
    (disconnect s).2.filter isDisconnectEv = [Ev.disconnect true none] ∧
    (runActs (disconnect s).1 tr).2.filter
        (fun e => isReconnectingEv e || isConnectingStateEv e) = [] ∧
    (runActs (disconnect s).1 tr).1.reconnectTimer = false := by
  have hd : (disconnect s).1.intentionalDisconnect = true ∧
      (disconnect s).1.reconnectTimer = false := by
    simp only [disconnect, setState, clearReconnectTimer, clearHeartbeat]
    constructor
    · split <;> rfl
    · split <;> rfl
  have hr := runActs_after_disconnect (disconnect s).1 tr hd.1 hd.2 hnc
  refine ⟨?_, hr.2.2, hr.2.1⟩
  simp [disconnect, setState, isDisconnectEv]

theorem disconnect_C1_witness :
    (∀ a ∈ [Act.sockClose 0, Act.timerReconnect false 0, Act.callDisconnect],
        isCallConnect a = false) ∧
    ((disconnect (connect initGW false 0).1).2.filter isDisconnectEv
        = [Ev.disconnect true none] ∧
     (runActs (disconnect (connect initGW false 0).1).1
        [Act.sockClose 0, Act.timerReconnect false 0, Act.callDisconnect]).2.filter
        (fun e => isReconnectingEv e || isConnectingStateEv e) = [] ∧
     (runActs (disconnect (connect initGW false 0).1).1
        [Act.sockClose 0, Act.timerReconnect false 0, Act.callDisconnect]).1.reconnectTimer
        = false) :=
  ⟨by decide,
   disconnect_C1 (connect initGW false 0).1
     [Act.sockClose 0, Act.timerReconnect false 0, Act.callDisconnect] (by decide)⟩

-- ---------------------------------------------------------------------------
-- C2
-- ---------------------------------------------------------------------------

theorem scheduleReconnect_attempts (s : GW) (j : ℚ) :
    (scheduleReconnect s j).1.reconnectAttempts = s.reconnectAttempts ∨
    (scheduleReconnect s j).1.reconnectAttempts = s.reconnectAttempts + 1 := by
  simp only [scheduleReconnect]
  split
  · exact Or.inl rfl
  · exact Or.inr rfl

theorem openSocket_attempts (s : GW) (cf : Bool) (j : ℚ) :
    (openSocket s cf j).1.reconnectAttempts = s.reconnectAttempts ∨
    (openSocket s cf j).1.reconnectAttempts = s.reconnectAttempts + 1 := by
  simp only [openSocket, setState]
  split
  · split
    · exact scheduleReconnect_attempts _ j
    · exact Or.inl rfl
  · exact Or.inl rfl

/-- Across every single step of the event loop the attempt counter either
stays, increments by one (a newly scheduled attempt), or is reset to zero
by a successful socket open. -/
theorem step_attempts (s : GW) (a : Act) :
    (step s a).1.reconnectAttempts = s.reconnectAttempts ∨
    (step s a).1.reconnectAttempts = s.reconnectAttempts + 1 ∨
    (a = Act.sockOpen ∧ (step s a).1.reconnectAttempts = 0) := by
  cases a with
  | callConnect cf j =>
      simp only [step, connect]
      split
      · exact Or.inl rfl
      · rcases openSocket_attempts { s with intentionalDisconnect := false } cf j with h | h
        · exact Or.inl h
        · exact Or.inr (Or.inl h)
  | callDisconnect =>
      simp only [step, disconnect, setState, clearReconnectTimer, clearHeartbeat]
      left
      split <;> rfl
  | sockOpen =>
      simp only [step, onOpen]
      split
      · exact Or.inr (Or.inr ⟨trivial, rfl⟩)
      · exact Or.inl rfl
  | sockError =>
      simp only [step, onError, setState]
      split <;> exact Or.inl rfl
  | sockClose j =>
      simp only [step, onClose]
      split
      · exact Or.inl rfl
      · simp only [setState, clearHeartbeat]
        split
        · rcases scheduleReconnect_attempts _ j with h | h
          · exact Or.inl h
          · exact Or.inr (Or.inl h)
        · exact Or.inl rfl
  | timerReconnect cf j =>
      simp only [step, reconnectTimerFires]
      split
      · split
        · rcases openSocket_attempts _ cf j with h | h
          · exact Or.inl h
          · exact Or.inr (Or.inl h)
        · exact Or.inl rfl
      · exact Or.inl rfl
  | timerHeartbeat =>
      simp only [step, heartbeatTickFires]
      left
      split
      · split <;> rfl
      · rfl
  | timerHbTimeout =>
      simp only [step, heartbeatTimeoutFires]
      left
      split
      · split <;> rfl
      · rfl
  | sockFrame f =>
      simp only [step]
      left
      split
      · cases f with
        | unparseable d => rfl
        | parsed m =>
            simp only [handleMessage]
            split <;> rfl
      · rfl

/-- C2: when the attempt counter has not reached the ceiling, a scheduled
reconnect increments the counter first and then computes its delay from
the incremented counter n as min of base times two to the power n minus
one and the cap, plus the jitter drawn from the interval from zero up to
but excluding five hundred; the counter strictly increases within one
failure episode (each schedule adds exactly one and no step decreases it)
and is reset to zero only by a successful socket open. -/
theorem backoff_C2 (s : GW) (j : ℚ) (a : Act)
    (hj0 : 0 ≤ j) (hj : j < 500)
    (hlt : s.reconnectAttempts < s.maxReconnectAttempts) :
    (scheduleReconnect s j).1.reconnectAttempts = s.reconnectAttempts + 1 ∧
    (scheduleReconnect s j).1.reconnectTimer = true ∧
    (scheduleReconnect s j).2 =
      [Ev.reconnecting (s.reconnectAttempts + 1)
        (min (BASE_RECONNECT_DELAY_MS * 2 ^ s.reconnectAttempts) MAX_RECONNECT_DELAY_MS + j)] ∧
    ((step s a).1.reconnectAttempts = s.reconnectAttempts ∨
     (step s a).1.reconnectAttempts = s.reconnectAttempts + 1 ∨
     (a = Act.sockOpen ∧ (step s a).1.reconnectAttempts = 0)) := by
  have hnot : ¬ s.reconnectAttempts ≥ s.maxReconnectAttempts := by omega
  refine ⟨?_, ?_, ?_, step_attempts s a⟩ <;> simp [scheduleReconnect, hnot]

theorem backoff_C2_witness :
    ((0:ℚ) ≤ 250 ∧ (250:ℚ) < 500 ∧
     ({ initGW with reconnectAttempts := 4 } : GW).reconnectAttempts
        < ({ initGW with reconnectAttempts := 4 } : GW).maxReconnectAttempts) ∧
    ((scheduleReconnect { initGW with reconnectAttempts := 4 } 250).1.reconnectAttempts
        = ({ initGW with reconnectAttempts := 4 } : GW).reconnectAttempts + 1 ∧
     (scheduleReconnect { initGW with reconnectAttempts := 4 } 250).1.reconnectTimer = true ∧
     (scheduleReconnect { initGW with reconnectAttempts := 4 } 250).2 =
        [Ev.reconnecting (({ initGW with reconnectAttempts := 4 } : GW).reconnectAttempts + 1)
          (min (BASE_RECONNECT_DELAY_MS
              * 2 ^ ({ initGW with reconnectAttempts := 4 } : GW).reconnectAttempts)
            MAX_RECONNECT_DELAY_MS + 250)] ∧
     ((step { initGW with reconnectAttempts := 4 } Act.sockOpen).1.reconnectAttempts
          = ({ initGW with reconnectAttempts := 4 } : GW).reconnectAttempts ∨
      (step { initGW with reconnectAttempts := 4 } Act.sockOpen).1.reconnectAttempts
          = ({ initGW with reconnectAttempts := 4 } : GW).reconnectAttempts + 1 ∨
      (Act.sockOpen = Act.sockOpen ∧
       (step { initGW with reconnectAttempts := 4 } Act.sockOpen).1.reconnectAttempts = 0))) :=
  ⟨⟨by norm_num, by norm_num, by decide⟩,
   backoff_C2 { initGW with reconnectAttempts := 4 } 250 Act.sockOpen
     (by norm_num) (by norm_num) (by decide)⟩

-- ---------------------------------------------------------------------------
-- C3
-- ---------------------------------------------------------------------------

theorem step_exhausted (s : GW) (a : Act)
    (h1 : s.maxReconnectAttempts ≤ s.reconnectAttempts) (h2 : s.sock = SockPhase.noSock)
    (h3 : s.reconnectTimer = false) (h4 : s.wsField = false)
    (h5 : s.heartbeatOn = false) (h6 : s.hbTimeoutPending = false)
    (ha : isCallConnect a = false) :
    (step s a).1.maxReconnectAttempts ≤ (step s a).1.reconnectAttempts ∧
    (step s a).1.sock = SockPhase.noSock ∧
    (step s a).1.reconnectTimer = false ∧
    (step s a).1.wsField = false ∧
    (step s a).1.heartbeatOn = false ∧
    (step s a).1.hbTimeoutPending = false ∧
    (step s a).2.filter (fun e => isReconnectingEv e || isReconnectFailedEv e) = [] := by
  cases a with
  | callConnect cf j => simp [isCallConnect] at ha
  | callDisconnect =>
      refine ⟨?_, ?_, ?_, ?_, ?_, ?_, ?_⟩ <;>
        simp [step, disconnect, setState, clearReconnectTimer, clearHeartbeat,
              h1, h2, h4, isReconnectingEv, isReconnectFailedEv]
  | sockOpen =>
      refine ⟨?_, ?_, ?_, ?_, ?_, ?_, ?_⟩ <;>
        simp [step, onOpen, h1, h2, h3, h4, h5, h6]
  | sockError =>
      refine ⟨?_, ?_, ?_, ?_, ?_, ?_, ?_⟩ <;>
        simp [step, onError, h1, h2, h3, h4, h5, h6]
  | sockClose j =>
      refine ⟨?_, ?_, ?_, ?_, ?_, ?_, ?_⟩ <;>
        simp [step, onClose, h1, h2, h3, h4, h5, h6]
  | timerReconnect cf j =>
      refine ⟨?_, ?_, ?_, ?_, ?_, ?_, ?_⟩ <;>
        simp [step, reconnectTimerFires, h1, h2, h3, h4, h5, h6]
  | timerHeartbeat =>
      refine ⟨?_, ?_, ?_, ?_, ?_, ?_, ?_⟩ <;>
        simp [step, heartbeatTickFires, h1, h2, h3, h4, h5, h6]
  | timerHbTimeout =>
      refine ⟨?_, ?_, ?_, ?_, ?_, ?_, ?_⟩ <;>
        simp [step, heartbeatTimeoutFires, h1, h2, h3, h4, h5, h6]
  | sockFrame f =>
      refine ⟨?_, ?_, ?_, ?_, ?_, ?_, ?_⟩ <;>
        simp [step, h1, h2, h3, h4, h5, h6]

theorem runActs_exhausted (s : GW) (tr : List Act)
    (h1 : s.maxReconnectAttempts ≤ s.reconnectAttempts) (h2 : s.sock = SockPhase.noSock)
    (h3 : s.reconnectTimer = false) (h4 : s.wsField = false)
    (h5 : s.heartbeatOn = false) (h6 : s.hbTimeoutPending = false)
    (hnc : ∀ a ∈ tr, isCallConnect a = false) :
    (runActs s tr).1.reconnectTimer = false ∧
    (runActs s tr).2.filter (fun e => isReconnectingEv e || isReconnectFailedEv e) = [] := by
  induction tr generalizing s with
  | nil => exact ⟨h3, rfl⟩
  | cons a tr ih =>
      have hstep := step_exhausted s a h1 h2 h3 h4 h5 h6 (hnc a (by simp))
      have hrest := ih (step s a).1 hstep.1 hstep.2.1 hstep.2.2.1 hstep.2.2.2.1
        hstep.2.2.2.2.1 hstep.2.2.2.2.2.1 (fun b hb => hnc b (by simp [hb]))
      refine ⟨hrest.1, ?_⟩
      simp only [runActs, List.filter_append]
      rw [hstep.2.2.2.2.2.2, hrest.2]
      rfl

/-- C3: when the close of the final failed attempt arrives with the attempt
counter at the ceiling, exactly one reconnect_failed event is emitted and
no reconnect timer is set; from that point on, for every sequence of
actions that does not contain a connect call, no reconnect timer is ever
scheduled again (no reconnecting event and no further reconnect_failed
event occurs, and the timer stays unset). -/
theorem reconnectFailed_terminal_C3 (s : GW) (j : ℚ) (tr : List Act)
    (hmax : s.maxReconnectAttempts ≤ s.reconnectAttempts)
    (hsock : s.sock = SockPhase.closing)
    (hint : s.intentionalDisconnect = false)
    (htimer : s.reconnectTimer = false)
    (hnc : ∀ a ∈ tr, isCallConnect a = false) :
    (onClose s j).2.filter isReconnectFailedEv = [Ev.reconnect_failed s.reconnectAttempts] ∧
    (onClose s j).1.reconnectTimer = false ∧
    (runActs (onClose s j).1 tr).2.filter
        (fun e => isReconnectingEv e || isReconnectFailedEv e) = [] ∧
    (runActs (onClose s j).1 tr).1.reconnectTimer = false := by
  have hev : (onClose s j).2.filter isReconnectFailedEv
      = [Ev.reconnect_failed s.reconnectAttempts] := by
    simp [onClose, hsock, setState, clearHeartbeat, scheduleReconnect, hint, hmax,
          isReconnectFailedEv]
  have hst : (onClose s j).1.maxReconnectAttempts ≤ (onClose s j).1.reconnectAttempts ∧
      (onClose s j).1.sock = SockPhase.noSock ∧
      (onClose s j).1.reconnectTimer = false ∧
      (onClose s j).1.wsField = false ∧
      (onClose s j).1.heartbeatOn = false ∧
      (onClose s j).1.hbTimeoutPending = false := by
    refine ⟨?_, ?_, ?_, ?_, ?_, ?_⟩ <;>
      simp [onClose, hsock, setState, clearHeartbeat, scheduleReconnect, hint, hmax, htimer]
  have hrun := runActs_exhausted (onClose s j).1 tr hst.1 hst.2.1 hst.2.2.1
    hst.2.2.2.1 hst.2.2.2.2.1 hst.2.2.2.2.2 hnc
  exact ⟨hev, hst.2.2.1, hrun.2, hrun.1⟩

def exhaustedGW : GW :=
  { initGW with reconnectAttempts := 10, sock := SockPhase.closing }

theorem reconnectFailed_terminal_C3_witness :
    (exhaustedGW.maxReconnectAttempts ≤ exhaustedGW.reconnectAttempts ∧
     exhaustedGW.sock = SockPhase.closing ∧
     exhaustedGW.intentionalDisconnect = false ∧
     exhaustedGW.reconnectTimer = false) ∧
    ((onClose exhaustedGW 0).2.filter isReconnectFailedEv = [Ev.reconnect_failed 10] ∧
     (runActs (onClose exhaustedGW 0).1
        [Act.timerReconnect false 0, Act.sockClose 0, Act.callDisconnect]).2.filter
        (fun e => isReconnectingEv e || isReconnectFailedEv e) = [] ∧
     (runActs (onClose exhaustedGW 0).1
        [Act.timerReconnect false 0, Act.sockClose 0, Act.callDisconnect]).1.reconnectTimer
        = false) := by
  have h := reconnectFailed_terminal_C3 exhaustedGW 0
    [Act.timerReconnect false 0, Act.sockClose 0, Act.callDisconnect]
    (by decide) (by decide) (by decide) (by decide) (by decide)
  exact ⟨⟨by decide, by decide, by decide, by decide⟩, ⟨h.1, h.2.2.1, h.2.2.2⟩⟩

theorem getStatus_connected_agrees_C10_witness :
    (getStatus initGW).connected = ((getStatus initGW).state == ConnectionState.connected) ∧
    ((getStatus initGW).connected = true ↔ (getStatus initGW).state = ConnectionState.connected) ∧
    isConnected initGW = (getStatus initGW).connected :=
  getStatus_connected_agrees_C10 initGW
